import Mathlib

/-!
Verification development for the lancache monitoring scripts
(`lancache_monitor.py` and `lancache_monitor_docker.py`).

The two scripts parse nginx-style access-log lines with `re.match`,
classify each request as a cache hit or miss, and accumulate counters.
Both regular-expression patterns use only literal characters and greedy
character-class quantifiers (`[^x]+`, `\S+`, `\d+`, `[^x]*`), so the
matcher below embeds exactly that fragment with Python's
leftmost/greedy/backtracking semantics: a quantifier first tries its
maximal run and backs off one character at a time.  `re.match` is
anchored at the start of the string only; a trailing remainder is
allowed and returned.  Character classes are modelled at ASCII scope
(all log fields of interest are ASCII).
-/

/-- A token of the regular-expression fragment used by both source
patterns: a literal character, a greedy capturing `(cls)+`, or a greedy
capturing `(cls)*`. -/
inductive Tok where
  | lit (c : Char)
  | grpPlus (p : Char → Bool)
  | grpStar (p : Char → Bool)

/-- Candidate match lengths `n, n-1, ..., 1` — the order in which a
greedy `+` quantifier tries to consume characters. -/
def descTo1 : Nat → List Nat
  | 0 => []
  | n + 1 => (n + 1) :: descTo1 n

/-- Candidate match lengths `n-1, ..., 1, 0`; `descList (m+1)` is the
order `m, ..., 0` in which a greedy `*` quantifier tries to consume. -/
def descList : Nat → List Nat
  | 0 => []
  | n + 1 => n :: descList n

/-- Try candidate consumption lengths in order: for length `k`, run the
continuation `f` on the rest of the input and, on success, record the
consumed characters as the capture of the current group. -/
def firstCap (f : List Char → Option (List (List Char) × List Char))
    (cs : List Char) : List Nat → Option (List (List Char) × List Char)
  | [] => none
  | k :: ks =>
    match f (cs.drop k) with
    | some (caps, r) => some (cs.take k :: caps, r)
    | none => firstCap f cs ks

/-- Fuel-indexed matcher.  Returns the list of captures and the
unconsumed remainder (matching `re.match`, which is anchored at the
start but not at the end).  Each token consumes one unit of fuel, so
`toks.length + 1` fuel is always sufficient. -/
def mtchF : Nat → List Tok → List Char → Option (List (List Char) × List Char)
  | 0, _, _ => none
  | _ + 1, [], cs => some ([], cs)
  | _ + 1, Tok.lit _ :: _, [] => none
  | fuel + 1, Tok.lit c :: rest, d :: cs =>
    if d = c then mtchF fuel rest cs else none
  | fuel + 1, Tok.grpPlus p :: rest, cs =>
    firstCap (mtchF fuel rest) cs (descTo1 (cs.takeWhile p).length)
  | fuel + 1, Tok.grpStar p :: rest, cs =>
    firstCap (mtchF fuel rest) cs (descList ((cs.takeWhile p).length + 1))

/-- Anchored match of a token list against a character list. -/
def mtch (toks : List Tok) (cs : List Char) :
    Option (List (List Char) × List Char) :=
  mtchF (toks.length + 1) toks cs

/-- Python `\s` at ASCII scope: space, tab, newline, carriage return,
vertical tab, form feed. -/
def wsChar (c : Char) : Bool :=
  c == ' ' || c == '\t' || c == '\n' || c == '\r' || c == '\x0b' || c == '\x0c'

/-- Python `\S`. -/
def nonWs (c : Char) : Bool := !wsChar c

/-- The class `[^\]]`. -/
def notRB (c : Char) : Bool := c != ']'

/-- The class `[^"]`. -/
def notQ (c : Char) : Bool := c != '"'

/-- Literal characters of a string as tokens. -/
def lits (s : String) : List Tok := s.data.map Tok.lit

/-- Decimal value of a digit string, as computed by Python `int`. -/
def digitsToNat (cs : List Char) : Nat :=
  cs.foldl (fun n c => n * 10 + (c.toNat - 48)) 0

/-- Python `str.isdigit` on the characters of a field: non-empty and
all digits. -/
def pyIsDigitL (cs : List Char) : Bool := !cs.isEmpty && cs.all Char.isDigit

/-- Python `str.upper` (ASCII scope). -/
def upper (s : String) : String := ⟨s.data.map Char.toUpper⟩

/-- Python `str.lower` (ASCII scope). -/
def lower (s : String) : String := ⟨s.data.map Char.toLower⟩

/-- Python `str.strip()`: remove leading and trailing whitespace. -/
def pyStrip (s : String) : String :=
  ⟨((s.data.dropWhile wsChar).reverse.dropWhile wsChar).reverse⟩

/-- Split a character list at every occurrence of the separator,
keeping empty chunks — the semantics of Python `str.split(sep)` with an
explicit separator (and of `String.splitOn`): the result is never
empty, and splitting the empty string gives one empty chunk. -/
def splitCh (sep : Char) : List Char → List (List Char)
  | [] => [[]]
  | d :: tl =>
    match splitCh sep tl with
    | chunk :: rest =>
      if d = sep then [] :: chunk :: rest else (d :: chunk) :: rest
    | [] => []

/-- `needle` is a prefix of the second list. -/
def isPrefixL : List Char → List Char → Bool
  | [], _ => true
  | _ :: _, [] => false
  | a :: as, b :: bs => a == b && isPrefixL as bs

/-- Substring test on char lists (Python `needle in hay`). -/
def containsSub (needle : List Char) : List Char → Bool
  | [] => needle.isEmpty
  | c :: cs => isPrefixL needle (c :: cs) || containsSub needle cs

/-- Python `needle in hay` on strings. -/
def strContains (hay needle : String) : Bool := containsSub needle.data hay.data

/-! ## `lancache_monitor.py` — the basic monitor -/

/-- The pattern of `parse_log_line` (lancache_monitor.py line 29):
`(\S+) - - \[([^\]]+)\] "(\S+) (\S+) (\S+)" (\d+) (\d+) "([^"]*)" "([^"]*)" "([^"]*)" (\d+\.\d+)`.
The final `(\d+\.\d+)` capture is represented by its two digit runs
(integer and fractional part) around the literal dot. -/
def basicToks : List Tok :=
  [Tok.grpPlus nonWs] ++ lits " - - [" ++ [Tok.grpPlus notRB] ++ lits "] \"" ++
  [Tok.grpPlus nonWs] ++ lits " " ++ [Tok.grpPlus nonWs] ++ lits " " ++
  [Tok.grpPlus nonWs] ++ lits "\" " ++ [Tok.grpPlus Char.isDigit] ++ lits " " ++
  [Tok.grpPlus Char.isDigit] ++ lits " \"" ++ [Tok.grpStar notQ] ++ lits "\" \"" ++
  [Tok.grpStar notQ] ++ lits "\" \"" ++ [Tok.grpStar notQ] ++ lits "\" " ++
  [Tok.grpPlus Char.isDigit] ++ lits "." ++ [Tok.grpPlus Char.isDigit]

/-- The dict returned by `parse_log_line` (lancache_monitor.py lines
33-42): it keeps groups 1,2,3,4,6,7,10,11 (protocol, referrer and
user-agent are dropped by the source).  The response time — consumed as
`float` by the source but never used afterwards — is kept as its
matched text. -/
structure BasicEntry where
  ip : String
  timestamp : String
  method : String
  url : String
  status : Nat
  bytes : Nat
  cache_status : String
  response_time : String
deriving DecidableEq, Repr

/-- `LanCacheMonitor.parse_log_line` of lancache_monitor.py (lines
27-43): anchored match, `None` when the pattern does not match. -/
def parse_log_line (line : String) : Option BasicEntry :=
  match mtch basicToks line.data with
  | some ([ip, ts, m, u, _pr, st, byt, _ref, _ua, cst, ri, rf], _) =>
    some { ip := ⟨ip⟩, timestamp := ⟨ts⟩, method := ⟨m⟩, url := ⟨u⟩,
           status := digitsToNat st, bytes := digitsToNat byt,
           cache_status := ⟨cst⟩,
           response_time := (⟨ri⟩ : String) ++ "." ++ (⟨rf⟩ : String) }
  | _ => none

/-- Per-CDN counters of the basic monitor (`cdn_stats` defaultdict). -/
structure BasicCdn where
  hits : Nat
  misses : Nat
  bytes : Nat
deriving DecidableEq, Repr

/-- Per-client counters of the basic monitor (`client_stats`). -/
structure BasicClient where
  requests : Nat
  bytes : Nat
deriving DecidableEq, Repr

/-- The mutable statistics of the basic monitor.  The defaultdicts are
modelled as total functions whose default value is the zero record —
exactly the observable behaviour of `defaultdict`. -/
structure BasicState where
  cache_hits : Nat
  cache_misses : Nat
  total_bytes : Nat
  cdn_stats : String → BasicCdn
  client_stats : String → BasicClient

/-- Pointwise function update (dict assignment). -/
def updF {κ α : Type} [DecidableEq κ] (f : κ → α) (k : κ) (v : α) : κ → α :=
  fun x => if x = k then v else f x

/-- The zeroed initial state of the basic monitor (`__init__`). -/
def basicInit : BasicState where
  cache_hits := 0
  cache_misses := 0
  total_bytes := 0
  cdn_stats := fun _ => ⟨0, 0, 0⟩
  client_stats := fun _ => ⟨0, 0⟩

/-- CDN detection of `update_stats` (lancache_monitor.py lines 58-72):
substring tests on the lower-cased URL, first match wins. -/
def detect_cdn (url : String) : String :=
  let u := lower url
  if strContains u "steam" then "steam"
  else if strContains u "epic" then "epic"
  else if strContains u "blizzard" || strContains u "battle.net" then "blizzard"
  else if strContains u "origin" || strContains u "ea.com" then "origin"
  else if strContains u "uplay" || strContains u "ubi.com" then "uplay"
  else if strContains u "windows" || strContains u "microsoft" then "windows"
  else "unknown"

/-- `LanCacheMonitor.update_stats` of lancache_monitor.py (lines
45-83) on a parsed entry: a request is counted as a hit exactly when
`cache_status == 'HIT'` (lines 51 and 75). -/
def update_stats (s : BasicState) (e : BasicEntry) : BasicState :=
  let hit := e.cache_status = "HIT"
  let cdn := detect_cdn e.url
  let c := s.cdn_stats cdn
  let cl := s.client_stats e.ip
  { cache_hits := s.cache_hits + (if hit then 1 else 0)
    cache_misses := s.cache_misses + (if hit then 0 else 1)
    total_bytes := s.total_bytes + e.bytes
    cdn_stats := updF s.cdn_stats cdn
      ⟨c.hits + (if hit then 1 else 0), c.misses + (if hit then 0 else 1),
       c.bytes + e.bytes⟩
    client_stats := updF s.client_stats e.ip ⟨cl.requests + 1, cl.bytes + e.bytes⟩ }

/-- `update_stats` including its `if not entry: return` guard (lines
47-48): a parse failure leaves the state unchanged. -/
def update_statsO (s : BasicState) : Option BasicEntry → BasicState
  | none => s
  | some e => update_stats s e

/-- The line-processing step of the basic monitor loop
(lancache_monitor.py lines 116-119): strip the line, parse, update. -/
def basicFeed (lines : List String) : BasicState :=
  lines.foldl (fun s l => update_statsO s (parse_log_line (pyStrip l))) basicInit

/-- Hit rate as printed by `print_stats` (lancache_monitor.py lines
87-88): percentage, with an explicit zero-requests guard. -/
def print_hit_rate (s : BasicState) : ℚ :=
  let total_requests := s.cache_hits + s.cache_misses
  if 0 < total_requests then (s.cache_hits : ℚ) / total_requests * 100 else 0

/-- Per-CDN hit rate as printed by `print_stats` (lines 102-103). -/
def print_cdn_hit_rate (s : BasicState) (cdn : String) : ℚ :=
  let d := s.cdn_stats cdn
  let t := d.hits + d.misses
  if 0 < t then (d.hits : ℚ) / t * 100 else 0

/-! ## `lancache_monitor_docker.py` — the docker/prometheus monitor -/

/-- The pattern of `parse_lancache_log_line` (line 104):
`\[([^\]]+)\] (\S+) / - - - \[([^\]]+)\] "([^"]+)" (\d+) (\d+) "([^"]*)" "([^"]*)" "([^"]*)" "([^"]*)" "-"`. -/
def lancacheToks : List Tok :=
  lits "[" ++ [Tok.grpPlus notRB] ++ lits "] " ++ [Tok.grpPlus nonWs] ++
  lits " / - - - [" ++ [Tok.grpPlus notRB] ++ lits "] \"" ++
  [Tok.grpPlus notQ] ++ lits "\" " ++ [Tok.grpPlus Char.isDigit] ++ lits " " ++
  [Tok.grpPlus Char.isDigit] ++ lits " \"" ++ [Tok.grpStar notQ] ++ lits "\" \"" ++
  [Tok.grpStar notQ] ++ lits "\" \"" ++ [Tok.grpStar notQ] ++ lits "\" \"" ++
  [Tok.grpStar notQ] ++ lits "\" \"-\""

/-- The dict returned by `parse_lancache_log_line` (lines 125-138). -/
structure LancacheRequest where
  cdn : String
  ip : String
  timestamp : String
  method : String
  url : String
  protocol : String
  status : Nat
  bytes : Nat
  referrer : String
  user_agent : String
  hit_status : String
  upstream : String
deriving DecidableEq, Repr

/-- The request-line split of `parse_lancache_log_line` (lines 114-123):
`match.group(4).split(' ')`, taking the first three tokens when there
are at least three, and falling back to defaults otherwise.  Note that
Python `split(' ')` never returns an empty list, but the source still
guards for it; the guard is kept. -/
def request_parts (s : String) : String × String × String :=
  let ps := (splitCh ' ' s.data).map fun l => (⟨l⟩ : String)
  if 3 ≤ ps.length then (ps.getD 0 "", ps.getD 1 "", ps.getD 2 "")
  else (if ps.isEmpty then "GET" else ps.getD 0 "",
        if 1 < ps.length then ps.getD 1 "" else "/",
        "HTTP/1.1")

/-- Build the request dict from the ten captures (lines 113-138).  The
byte count mirrors `int(match.group(6)) if match.group(6).isdigit()
else 0` exactly. -/
def buildLancacheRequest (caps : List (List Char)) : Option LancacheRequest :=
  match caps with
  | [cdn, ip, ts, req, st, byt, ref, ua, hs, up] =>
    let (m, u, pr) := request_parts ⟨req⟩
    some { cdn := lower ⟨cdn⟩, ip := ⟨ip⟩, timestamp := ⟨ts⟩,
           method := m, url := u, protocol := pr,
           status := digitsToNat st,
           bytes := if pyIsDigitL byt then digitsToNat byt else 0,
           referrer := ⟨ref⟩, user_agent := ⟨ua⟩,
           hit_status := ⟨hs⟩, upstream := ⟨up⟩ }
  | _ => none

/-- Anchored match of the docker pattern on an already-stripped string. -/
def lancacheMatchRaw (s : String) : Option LancacheRequest :=
  match mtch lancacheToks s.data with
  | some (caps, _) => buildLancacheRequest caps
  | none => none

/-- `LanCacheMonitor.parse_lancache_log_line` of
lancache_monitor_docker.py (lines 101-141): the source matches against
`line.strip()` and returns `None` when the pattern does not match. -/
def parse_lancache_log_line (line : String) : Option LancacheRequest :=
  lancacheMatchRaw (pyStrip line)

/-- `LanCacheMonitor.is_cache_hit` of lancache_monitor_docker.py (lines
143-161): explicit hit-status tokens first, HTTP status fallback. -/
def is_cache_hit (r : LancacheRequest) : Bool :=
  let hs := upper r.hit_status
  if hs = "HIT" ∨ hs = "STALE" then true
  else if hs = "MISS" ∨ hs = "BYPASS" ∨ hs = "EXPIRED" then false
  else if r.status = 200 ∨ r.status = 206 ∨ r.status = 304 then true
  else false

/-- The two-tier classification policy exactly as the spec words it:
tokens HIT/STALE (case-insensitively) are hits, MISS/BYPASS/EXPIRED are
misses, any other token falls through to the status-code rule under
which 200/206/304 are hits. -/
def twoTierOn (tok : String) (status : Nat) : Bool :=
  if upper tok ∈ (["HIT", "STALE"] : List String) then true
  else if upper tok ∈ (["MISS", "BYPASS", "EXPIRED"] : List String) then false
  else if status ∈ ([200, 206, 304] : List Nat) then true
  else false

/-- Per-CDN counters of the docker monitor (`cdn_stats`, line 179). -/
structure CdnStat where
  requests : Nat
  hits : Nat
  bytes : Nat
deriving DecidableEq, Repr

/-- One entry of the `recent_requests` deque (lines 211-216). -/
structure RecentEntry where
  timestamp : Nat
  cdn : String
  bytes : Nat
  hit_status : String
deriving DecidableEq, Repr

/-- The mutable statistics of the docker monitor: the plain Python
attributes (`total_requests`, `total_hits`, `total_bytes_served`,
`cdn_stats`, `recent_requests`) together with the prometheus metrics it
maintains (counters modelled as label-indexed totals, gauges as stored
values).  Lazily created dict entries and never-incremented counter
labels are modelled as total functions defaulting to zero. -/
structure DockerState where
  total_requests : Nat
  total_hits : Nat
  total_bytes_served : Nat
  cdn_stats : String → CdnStat
  requests_total : String × String × String → Nat
  bytes_total : String × String → Nat
  cache_hits_ctr : String → Nat
  cache_misses_ctr : String → Nat
  hit_rate : ℚ
  hit_rate_by_cdn : String → ℚ
  recent_requests : List RecentEntry

/-- The initial docker-monitor state (`__init__`, lines 84-96): all
counters zero and `hit_rate.set(0.0)`. -/
def dockerInit : DockerState where
  total_requests := 0
  total_hits := 0
  total_bytes_served := 0
  cdn_stats := fun _ => ⟨0, 0, 0⟩
  requests_total := fun _ => 0
  bytes_total := fun _ => 0
  cache_hits_ctr := fun _ => 0
  cache_misses_ctr := fun _ => 0
  hit_rate := 0
  hit_rate_by_cdn := fun _ => 0
  recent_requests := []

/-- Append to the `recent_requests` deque with `maxlen=1000`: the
oldest entries are evicted once the capacity is exceeded. -/
def pushRecent (l : List RecentEntry) (e : RecentEntry) : List RecentEntry :=
  let l' := l ++ [e]
  if 1000 < l'.length then l'.drop (l'.length - 1000) else l'

/-- The per-CDN update performed by `process_request` (lines 184-194):
bytes are added only when `bytes_served > 0`, the request counter is
always incremented, the hit counter on a cache hit. -/
def stepCdn (c : CdnStat) (r : LancacheRequest) : CdnStat where
  requests := c.requests + 1
  hits := if is_cache_hit r then c.hits + 1 else c.hits
  bytes := if 0 < r.bytes then c.bytes + r.bytes else c.bytes

/-- `LanCacheMonitor.process_request` of lancache_monitor_docker.py
(lines 163-216).  `now` stands for `datetime.now()`.  The hit-rate
gauges keep the source's `> 0` guards (lines 200 and 206), evaluated —
as in the source — after the counters were updated. -/
def process_request (now : Nat) (s : DockerState) (r : LancacheRequest) :
    DockerState :=
  let hit := is_cache_hit r
  let c' := stepCdn (s.cdn_stats r.cdn) r
  let total_requests := s.total_requests + 1
  let total_hits := if hit then s.total_hits + 1 else s.total_hits
  { total_requests := total_requests
    total_hits := total_hits
    total_bytes_served :=
      if 0 < r.bytes then s.total_bytes_served + r.bytes else s.total_bytes_served
    cdn_stats := updF s.cdn_stats r.cdn c'
    requests_total :=
      updF s.requests_total (toString r.status, r.method, r.cdn)
        (s.requests_total (toString r.status, r.method, r.cdn) + 1)
    bytes_total :=
      if 0 < r.bytes then
        updF s.bytes_total (r.cdn, r.hit_status)
          (s.bytes_total (r.cdn, r.hit_status) + r.bytes)
      else s.bytes_total
    cache_hits_ctr :=
      if hit then updF s.cache_hits_ctr r.cdn (s.cache_hits_ctr r.cdn + 1)
      else s.cache_hits_ctr
    cache_misses_ctr :=
      if hit then s.cache_misses_ctr
      else updF s.cache_misses_ctr r.cdn (s.cache_misses_ctr r.cdn + 1)
    hit_rate :=
      if 0 < total_requests then (total_hits : ℚ) / total_requests else s.hit_rate
    hit_rate_by_cdn :=
      if 0 < c'.requests then
        updF s.hit_rate_by_cdn r.cdn ((c'.hits : ℚ) / c'.requests)
      else s.hit_rate_by_cdn
    recent_requests := pushRecent s.recent_requests ⟨now, r.cdn, r.bytes, r.hit_status⟩ }

/-- Run `process_request` over a finite sequence of parsed requests
(each with its `datetime.now()` instant) from the zeroed state. -/
def dockerRun (evs : List (Nat × LancacheRequest)) : DockerState :=
  evs.foldl (fun s e => process_request e.1 s e.2) dockerInit

/-- Global hit rate derived at read time, per the spec's rule
(hits/requests, 0 when requests = 0). -/
def globalHitRate (s : DockerState) : ℚ :=
  if s.total_requests = 0 then 0 else (s.total_hits : ℚ) / s.total_requests

/-- Per-CDN hit rate derived at read time, same rule. -/
def cdnHitRate (s : DockerState) (c : String) : ℚ :=
  if (s.cdn_stats c).requests = 0 then 0
  else ((s.cdn_stats c).hits : ℚ) / ((s.cdn_stats c).requests : ℚ)

/-! ## The tailing loop of the docker monitor -/

/-- The lines yielded by iterating an open Python text file: chunks
split at newlines.  The trailing empty chunk produced by `splitOn` on a
terminator-final string is harmless because the loop body skips lines
whose `strip()` is empty, exactly as the source does. -/
def fileLines (s : String) : List String :=
  if s = "" then [] else (splitCh '\n' s.data).map fun l => (⟨l⟩ : String)

/-- One read cycle of `monitor_logs` (lines 225-234): `f.seek(last_pos)`
followed by iterating the file and `last_pos = f.tell()`.  Seeking past
the end of a shorter file reads nothing and leaves the position where
it was sought; there is no truncation check in the source. -/
def readCycle (last_pos : Nat) (content : String) : List String × Nat :=
  if last_pos ≤ content.length then
    (fileLines (content.drop last_pos), content.length)
  else ([], last_pos)

/-- The per-line body of `monitor_logs` (lines 228-232): skip blank
lines, parse, and feed parsed requests to `process_request`. -/
def dockerLineStep (now : Nat) (s : DockerState) (line : String) : DockerState :=
  if pyStrip line ≠ "" then
    match parse_lancache_log_line line with
    | some r => process_request now s r
    | none => s
  else s

/-- What one iteration of the `while True` tailer loop observes about
the file system: the path is absent, the read raises, or the file has
some current content. -/
inductive FileObs where
  | absent
  | readError
  | ok (content : String)

/-- State owned by `monitor_logs`: the shared statistics and the
`last_pos` cursor. -/
structure MonitorState where
  stats : DockerState
  last_pos : Nat

/-- Outcome of one loop iteration: continue with a new state, or leave
the loop.  The `exit` outcome exists so that non-termination of the
loop is a provable property, not a modelling assumption. -/
inductive LoopOutcome where
  | cont (s : MonitorState)
  | exit (s : MonitorState)

/-- One iteration of `monitor_logs` (lines 222-243): a missing file is
logged and slept over (state unchanged), an exception is caught by the
`except` clause and slept over (state unchanged), otherwise the newly
appended content is consumed.  The body contains no `break` or
`return`, and every exception is caught, so every branch continues. -/
def monitor_logs_step (now : Nat) (st : MonitorState) (obs : FileObs) :
    LoopOutcome :=
  match obs with
  | FileObs.absent => LoopOutcome.cont st
  | FileObs.readError => LoopOutcome.cont st
  | FileObs.ok content =>
    let (ls, pos') := readCycle st.last_pos content
    LoopOutcome.cont { stats := ls.foldl (dockerLineStep now) st.stats, last_pos := pos' }

/-! ## Auxiliary definitions used by the statements -/

/-- Group predicates of a token list, with a flag marking the
one-or-more groups. -/
def groupSpecs : List Tok → List ((Char → Bool) × Bool)
  | [] => []
  | Tok.lit _ :: ts => groupSpecs ts
  | Tok.grpPlus p :: ts => (p, true) :: groupSpecs ts
  | Tok.grpStar p :: ts => (p, false) :: groupSpecs ts

/-- A token list is delimiter-separated when every group is immediately
followed by a literal outside the group's class.  Both source patterns
have this shape, which makes their greedy matching deterministic. -/
def delimOK : List Tok → Bool
  | [] => true
  | Tok.lit _ :: ts => delimOK ts
  | Tok.grpPlus p :: Tok.lit c :: ts => !(p c) && delimOK (Tok.lit c :: ts)
  | Tok.grpStar p :: Tok.lit c :: ts => !(p c) && delimOK (Tok.lit c :: ts)
  | _ => false

/-- Whether the docker pattern consumes the whole string (no remainder). -/
def lancacheFullMatch (s : String) : Bool :=
  match mtch lancacheToks s.data with
  | some (_, []) => true
  | _ => false

/-- Whether the basic pattern consumes the whole string (no remainder). -/
def basicFullMatch (s : String) : Bool :=
  match mtch basicToks s.data with
  | some (_, []) => true
  | _ => false

/-- The request-line splitting rule exactly as the spec words it: split
on single spaces; with fewer than 3 tokens the method is the first
token (or GET if there are none), the path the second (or `/`), the
protocol `HTTP/1.1`; with 3 or more tokens the first three are taken. -/
def specRequestParts (s : String) : String × String × String :=
  let ts := (splitCh ' ' s.data).map fun l => (⟨l⟩ : String)
  if ts.length < 3 then (ts.headD "GET", ts[1]?.getD "/", "HTTP/1.1")
  else (ts.headD "", ts[1]?.getD "", ts[2]?.getD "")

/-- The first end-to-end test line of the spec (generic format, no
response-time field). -/
def specLine1 : String :=
  "1.2.3.4 - - [01/Jan/2024:00:00:00 +0000] \"GET /steam/depot/1 HTTP/1.1\" 200 2048 \"-\" \"-\" \"HIT\""

/-- The second end-to-end test line of the spec. -/
def specLine2 : String :=
  "1.2.3.4 - - [01/Jan/2024:00:00:01 +0000] \"GET /epic/manifest HTTP/1.1\" 404 0 \"-\" \"-\" \"MISS\""

/-- The spec's first test line with the response-time field that the
generic grammar of `parse_log_line` actually requires. -/
def rtLine1 : String :=
  "1.2.3.4 - - [01/Jan/2024:00:00:00 +0000] \"GET /steam/depot/1 HTTP/1.1\" 200 2048 \"-\" \"-\" \"HIT\" 0.001"

/-- The spec's second test line with the required response-time field. -/
def rtLine2 : String :=
  "1.2.3.4 - - [01/Jan/2024:00:00:01 +0000] \"GET /epic/manifest HTTP/1.1\" 404 0 \"-\" \"-\" \"MISS\" 0.002"

/-- A generic-format line carrying the cache-status token STALE with
HTTP status 200. -/
def staleLine : String :=
  "1.2.3.4 - - [01/Jan/2024:00:00:00 +0000] \"GET /steam/depot/1 HTTP/1.1\" 200 100 \"-\" \"-\" \"STALE\" 0.001"

/-- The entry `parse_log_line` produces for `staleLine`. -/
def staleEntry : BasicEntry :=
  ⟨"1.2.3.4", "01/Jan/2024:00:00:00 +0000", "GET", "/steam/depot/1", 200, 100,
   "STALE", "0.001"⟩

/-- A well-formed cache-tagged (docker-format) log line. -/
def dockerLine1 : String :=
  "[steam] 1.2.3.4 / - - - [01/Jan/2024:00:00:00 +0000] \"GET /depot/1 HTTP/1.1\" 200 2048 \"-\" \"-\" \"HIT\" \"-\" \"-\""

/-- A cache-tagged line whose quoted request field holds a single token. -/
def oneTokenReqLine : String :=
  "[steam] 1.2.3.4 / - - - [01/Jan/2024:00:00:00 +0000] \"GET\" 200 5 \"-\" \"-\" \"HIT\" \"-\" \"-\""

/-- A cache-tagged line whose byte-count field is not numeric. -/
def badByteLine : String :=
  "[steam] 1.2.3.4 / - - - [01/Jan/2024:00:00:00 +0000] \"GET /depot/1 HTTP/1.1\" 200 abc \"-\" \"-\" \"HIT\" \"-\" \"-\""

/-- What one iteration of the basic monitor's `while self.running` loop
(lancache_monitor.py lines 115-121) observes from `f.readline()`: a
line, no new data (empty string), or a raised error (e.g. `OSError` or
`UnicodeDecodeError` on undecodable log bytes). -/
inductive BasicReadObs where
  | line (s : String)
  | noData
  | readError

/-- Outcome of one iteration of the basic monitor's tailing loop:
continue with a new state, or leave the loop for good. -/
inductive BasicLoopOutcome where
  | cont (s : BasicState)
  | exit (s : BasicState)

/-- One iteration of `LanCacheMonitor.monitor` of lancache_monitor.py
(lines 106-127).  A line is stripped, parsed and recorded; no new data
sleeps and retries.  The `try`/`except` wraps the whole loop from the
outside (lines 110-127) and handles only `FileNotFoundError` and
`KeyboardInterrupt`, and both handlers end `monitor` rather than
resume it — so any exception raised by the read leaves the `while`
loop permanently: either it is one of the two handled classes and
`monitor` returns, or it propagates and kills the tailing thread.
Nothing re-enters the loop in either case. -/
def basic_monitor_step (s : BasicState) (obs : BasicReadObs) : BasicLoopOutcome :=
  match obs with
  | BasicReadObs.line l =>
    BasicLoopOutcome.cont (update_statsO s (parse_log_line (pyStrip l)))
  | BasicReadObs.noData => BasicLoopOutcome.cont s
  | BasicReadObs.readError => BasicLoopOutcome.exit s

/-! ## Matcher lemmas -/

theorem mem_descTo1 {k n : Nat} (h : k ∈ descTo1 n) : 1 ≤ k ∧ k ≤ n := by
  induction n with
  | zero => simp [descTo1] at h
  | succ n ih =>
    simp only [descTo1, List.mem_cons] at h
    rcases h with rfl | h
    · omega
    · have := ih h; omega

theorem mem_descList {k n : Nat} (h : k ∈ descList n) : k < n := by
  induction n with
  | zero => simp [descList] at h
  | succ n ih =>
    simp only [descList, List.mem_cons] at h
    rcases h with rfl | h
    · omega
    · have := ih h; omega

theorem firstCap_eq_some {f : List Char → Option (List (List Char) × List Char)}
    {cs : List Char} {caps : List (List Char)} {r : List Char} :
    ∀ {ks : List Nat}, firstCap f cs ks = some (caps, r) →
      ∃ k capsTail, k ∈ ks ∧ f (cs.drop k) = some (capsTail, r) ∧
        caps = cs.take k :: capsTail := by
  intro ks
  induction ks with
  | nil => intro h; simp [firstCap] at h
  | cons k ks ih =>
    intro h
    simp only [firstCap] at h
    rcases hf : f (cs.drop k) with _ | ⟨caps', r'⟩
    · rw [hf] at h
      obtain ⟨k', t, hk, hfk, hc⟩ := ih h
      exact ⟨k', t, List.mem_cons_of_mem _ hk, hfk, hc⟩
    · rw [hf] at h
      simp only [Option.some.injEq, Prod.mk.injEq] at h
      obtain ⟨h1, h2⟩ := h
      exact ⟨k, caps', List.mem_cons_self _ _, by rw [hf, h2], h1.symm⟩

theorem firstCap_none {f : List Char → Option (List (List Char) × List Char)}
    {cs : List Char} :
    ∀ {ks : List Nat}, (∀ k ∈ ks, f (cs.drop k) = none) → firstCap f cs ks = none := by
  intro ks
  induction ks with
  | nil => intro _; rfl
  | cons k ks ih =>
    intro h
    simp only [firstCap, h k (List.mem_cons_self _ _)]
    exact ih fun k' hk' => h k' (List.mem_cons_of_mem _ hk')

theorem takeWhile_take_all {p : Char → Bool} :
    ∀ (cs : List Char) (k : Nat), k ≤ (cs.takeWhile p).length →
      (cs.take k).all p = true := by
  intro cs
  induction cs with
  | nil => intro k hk; simp [List.takeWhile] at hk; simp [hk]
  | cons c cs ih =>
    intro k hk
    cases k with
    | zero => simp
    | succ k =>
      rcases hp : p c with _ | _
      · simp [List.takeWhile, hp] at hk
      · simp only [List.takeWhile, hp, List.length_cons] at hk
        simp only [List.take, List.all_cons, hp, Bool.true_and]
        exact ih k (by omega)

theorem takeWhile_drop_head {p : Char → Bool} :
    ∀ (cs : List Char) (k : Nat), k < (cs.takeWhile p).length →
      ∃ d tl, cs.drop k = d :: tl ∧ p d = true := by
  intro cs
  induction cs with
  | nil => intro k hk; simp [List.takeWhile] at hk
  | cons c cs ih =>
    intro k hk
    rcases hp : p c with _ | _
    · simp [List.takeWhile, hp] at hk
    · cases k with
      | zero => exact ⟨c, cs, rfl, hp⟩
      | succ k =>
        simp only [List.takeWhile, hp, List.length_cons] at hk
        exact ih k (by omega)

theorem takeWhile_append_left {p : Char → Bool} :
    ∀ (cs ext : List Char), (cs.takeWhile p).length < cs.length →
      (cs ++ ext).takeWhile p = cs.takeWhile p := by
  intro cs
  induction cs with
  | nil => intro ext h; simp at h
  | cons c cs ih =>
    intro ext h
    rcases hp : p c with _ | _
    · simp [List.takeWhile, hp]
    · simp only [List.takeWhile, hp, List.length_cons, List.cons_append] at h ⊢
      exact congrArg (List.cons c) (ih ext (by omega))

/-- A group token fails on any suffix that still starts inside the
maximal run of its class, when the next pattern token is a literal
outside the class: the literal cannot match a run character. -/
theorem mtchF_lit_below {p : Char → Bool} {c : Char} (hc : p c = false) :
    ∀ (fuel : Nat) (ts : List Tok) (cs : List Char) (k : Nat),
      k < (cs.takeWhile p).length →
      mtchF fuel (Tok.lit c :: ts) (cs.drop k) = none := by
  intro fuel ts cs k hk
  obtain ⟨d, tl, hdrop, hd⟩ := takeWhile_drop_head cs k hk
  rw [hdrop]
  cases fuel with
  | zero => rfl
  | succ fuel =>
    simp only [mtchF]
    have hne : d ≠ c := by intro h; rw [h] at hd; rw [hd] at hc; cases hc
    simp [hne]

/-- Capture soundness: every capture returned by the matcher consists of
characters of its group's class, and a `+` group's capture is non-empty. -/
theorem mtchF_caps_sound :
    ∀ (fuel : Nat) (toks : List Tok) (cs : List Char) (caps : List (List Char))
      (r : List Char), mtchF fuel toks cs = some (caps, r) →
      List.Forall₂ (fun (cap : List Char) (s : (Char → Bool) × Bool) =>
        cap.all s.1 = true ∧ (s.2 = true → cap ≠ [])) caps (groupSpecs toks) := by
  intro fuel
  induction fuel with
  | zero => intro toks cs caps r h; cases h
  | succ fuel ih =>
    intro toks cs caps r h
    match toks with
    | [] =>
      simp only [mtchF, Option.some.injEq, Prod.mk.injEq] at h
      rw [← h.1]
      exact List.Forall₂.nil
    | Tok.lit c :: ts =>
      match cs with
      | [] => cases h
      | d :: cs' =>
        simp only [mtchF] at h
        by_cases hd : d = c
        · rw [if_pos hd] at h
          exact ih ts cs' caps r h
        · rw [if_neg hd] at h; cases h
    | Tok.grpPlus p :: ts =>
      simp only [mtchF] at h
      obtain ⟨k, t, hk, hfk, hcaps⟩ := firstCap_eq_some h
      obtain ⟨hk1, hkm⟩ := mem_descTo1 hk
      subst hcaps
      refine List.Forall₂.cons ⟨takeWhile_take_all cs k hkm, fun _ => ?_⟩ (ih ts _ t r hfk)
      have hlen : (cs.take k).length = min k cs.length := List.length_take k cs
      have hm : (cs.takeWhile p).length ≤ cs.length :=
        (List.takeWhile_sublist p).length_le
      intro hnil
      rw [hnil] at hlen
      simp at hlen
      omega
    | Tok.grpStar p :: ts =>
      simp only [mtchF] at h
      obtain ⟨k, t, hk, hfk, hcaps⟩ := firstCap_eq_some h
      subst hcaps
      have hk' : k ≤ (cs.takeWhile p).length := by
        have := mem_descList hk; omega
      exact List.Forall₂.cons ⟨takeWhile_take_all cs k hk', fun hb => by cases hb⟩
        (ih ts _ t r hfk)

theorem drop_cons_lt_length {cs : List Char} {k : Nat} {d : Char} {tl : List Char}
    (h : cs.drop k = d :: tl) : k < cs.length := by
  by_contra hk
  rw [List.drop_eq_nil_of_le (by omega)] at h
  cases h

/-- End-extension stability for delimiter-separated patterns: if the
whole input is consumed by a match, appending any suffix leaves the
captures unchanged and the suffix as the remainder. -/
theorem mtchF_append :
    ∀ (fuel : Nat) (toks : List Tok) (cs ext : List Char) (caps : List (List Char)),
      delimOK toks = true → mtchF fuel toks cs = some (caps, []) →
      mtchF fuel toks (cs ++ ext) = some (caps, ext) := by
  intro fuel
  induction fuel with
  | zero => intro toks cs ext caps _ h; cases h
  | succ fuel ih =>
    intro toks cs ext caps hdel h
    match toks with
    | [] =>
      simp only [mtchF, Option.some.injEq, Prod.mk.injEq] at h
      obtain ⟨h1, h2⟩ := h
      subst h2
      simp only [List.nil_append, mtchF, h1]
    | Tok.lit c :: ts =>
      match cs with
      | [] => cases h
      | d :: cs' =>
        simp only [mtchF] at h
        by_cases hdc : d = c
        · rw [if_pos hdc] at h
          simp only [List.cons_append, mtchF, if_pos hdc]
          exact ih ts cs' ext caps hdel h
        · rw [if_neg hdc] at h; cases h
    | Tok.grpPlus p :: ts =>
      match ts with
      | [] => simp [delimOK] at hdel
      | Tok.grpPlus _ :: _ => simp [delimOK] at hdel
      | Tok.grpStar _ :: _ => simp [delimOK] at hdel
      | Tok.lit c :: ts' =>
        simp only [delimOK, Bool.and_eq_true, Bool.not_eq_true'] at hdel
        obtain ⟨hpc, hdel'⟩ := hdel
        simp only [mtchF] at h ⊢
        rcases hm0 : (cs.takeWhile p).length with _ | m0
        · rw [hm0] at h; simp [descTo1, firstCap] at h
        · rw [hm0] at h
          simp only [descTo1] at h
          rcases hin : mtchF fuel (Tok.lit c :: ts') (cs.drop (m0 + 1)) with _ | ⟨caps', r'⟩
          · exfalso
            simp only [firstCap, hin] at h
            rw [firstCap_none (fun k hk => by
              have := mem_descTo1 hk
              exact mtchF_lit_below hpc fuel ts' cs k (by omega))] at h
            cases h
          · simp only [firstCap, hin, Option.some.injEq, Prod.mk.injEq] at h
            obtain ⟨hcaps, hr⟩ := h
            subst hr
            have hmlt : m0 + 1 < cs.length := by
              rcases hd : cs.drop (m0 + 1) with _ | ⟨d, tl⟩
              · rw [hd] at hin; cases fuel <;> cases hin
              · exact drop_cons_lt_length hd
            have htw : ((cs ++ ext).takeWhile p).length = m0 + 1 := by
              rw [takeWhile_append_left cs ext (by omega), hm0]
            rw [htw]
            simp only [descTo1, firstCap,
              List.drop_append_of_le_length (by omega : m0 + 1 ≤ cs.length)]
            rw [ih (Tok.lit c :: ts') (cs.drop (m0 + 1)) ext caps' hdel' hin]
            rw [List.take_append_of_le_length (by omega : m0 + 1 ≤ cs.length)]
            rw [← hcaps]
    | Tok.grpStar p :: ts =>
      match ts with
      | [] => simp [delimOK] at hdel
      | Tok.grpPlus _ :: _ => simp [delimOK] at hdel
      | Tok.grpStar _ :: _ => simp [delimOK] at hdel
      | Tok.lit c :: ts' =>
        simp only [delimOK, Bool.and_eq_true, Bool.not_eq_true'] at hdel
        obtain ⟨hpc, hdel'⟩ := hdel
        simp only [mtchF] at h ⊢
        rcases hin : mtchF fuel (Tok.lit c :: ts')
            (cs.drop (cs.takeWhile p).length) with _ | ⟨caps', r'⟩
        · exfalso
          simp only [descList, firstCap, hin] at h
          rw [firstCap_none (fun k hk => by
            have := mem_descList hk
            exact mtchF_lit_below hpc fuel ts' cs k this)] at h
          cases h
        · simp only [descList, firstCap, hin, Option.some.injEq, Prod.mk.injEq] at h
          obtain ⟨hcaps, hr⟩ := h
          subst hr
          have hmlt : (cs.takeWhile p).length < cs.length := by
            rcases hd : cs.drop (cs.takeWhile p).length with _ | ⟨d, tl⟩
            · rw [hd] at hin; cases fuel <;> cases hin
            · exact drop_cons_lt_length hd
          have htw : ((cs ++ ext).takeWhile p).length = (cs.takeWhile p).length :=
            congrArg List.length (takeWhile_append_left cs ext hmlt)
          rw [htw]
          simp only [descList, firstCap,
            List.drop_append_of_le_length (by omega : (cs.takeWhile p).length ≤ cs.length)]
          rw [ih (Tok.lit c :: ts') (cs.drop (cs.takeWhile p).length) ext caps' hdel' hin]
          rw [List.take_append_of_le_length (by omega : (cs.takeWhile p).length ≤ cs.length)]
          rw [← hcaps]

/-! ## Invariant helpers for the docker aggregator -/

theorem dockerRun_inv {P : DockerState → Prop} (h0 : P dockerInit)
    (hstep : ∀ (now : Nat) (s : DockerState) (r : LancacheRequest),
      P s → P (process_request now s r)) :
    ∀ evs : List (Nat × LancacheRequest), P (dockerRun evs) := by
  have aux : ∀ (l : List (Nat × LancacheRequest)) (s : DockerState), P s →
      P (l.foldl (fun s e => process_request e.1 s e.2) s) := by
    intro l
    induction l with
    | nil => exact fun s hs => hs
    | cons e l ih => exact fun s hs => ih _ (hstep e.1 s e.2 hs)
  exact fun evs => aux evs dockerInit h0

theorem inv6_step (now : Nat) (s : DockerState) (r : LancacheRequest)
    (h : s.total_hits ≤ s.total_requests ∧
      ∀ c, (s.cdn_stats c).hits ≤ (s.cdn_stats c).requests) :
    (process_request now s r).total_hits ≤ (process_request now s r).total_requests ∧
    ∀ c, ((process_request now s r).cdn_stats c).hits ≤
      ((process_request now s r).cdn_stats c).requests := by
  obtain ⟨h1, h2⟩ := h
  constructor
  · simp only [process_request]
    split_ifs <;> omega
  · intro c
    simp only [process_request, updF]
    by_cases hc : c = r.cdn
    · simp only [hc, if_pos rfl, stepCdn]
      have := h2 r.cdn
      split_ifs <;> dsimp only <;> omega
    · simp only [if_neg hc]
      exact h2 c

theorem inv9_step (now : Nat) (s : DockerState) (r : LancacheRequest)
    (h : (s.total_requests = 0 → s.hit_rate = 0) ∧
      ∀ c, (s.cdn_stats c).requests = 0 → s.hit_rate_by_cdn c = 0) :
    ((process_request now s r).total_requests = 0 → (process_request now s r).hit_rate = 0) ∧
    ∀ c, ((process_request now s r).cdn_stats c).requests = 0 →
      (process_request now s r).hit_rate_by_cdn c = 0 := by
  obtain ⟨_, h2⟩ := h
  constructor
  · simp only [process_request]
    intro hz
    exact absurd hz (Nat.succ_ne_zero _)
  · intro c
    simp only [process_request, updF, stepCdn]
    by_cases hc : c = r.cdn
    · simp only [hc, if_pos rfl]
      intro hz
      exact absurd hz (Nat.succ_ne_zero _)
    · simp only [if_neg hc]
      intro hz
      rw [if_pos (Nat.succ_pos _)]
      simp only [updF, if_neg hc]
      exact h2 c hz

theorem div_guard_bounds (hits req : Nat) (h : hits ≤ req) :
    0 ≤ (if req = 0 then (0 : ℚ) else (hits : ℚ) / (req : ℚ)) ∧
    (if req = 0 then (0 : ℚ) else (hits : ℚ) / (req : ℚ)) ≤ 1 := by
  split_ifs with h0
  · norm_num
  · have hp : (0 : ℚ) < (req : ℚ) := by exact_mod_cast Nat.pos_of_ne_zero h0
    constructor
    · positivity
    · rw [div_le_one hp]
      exact_mod_cast h

/-! ## Claims -/

/-- Claim C1 (corrected): the docker monitor's `is_cache_hit` follows
the spec's two-tier policy exactly; the basic monitor's `update_stats`,
however, counts a hit exactly when the raw cache-status token equals
the string HIT (case-sensitively, with no status-code fallback). -/
theorem C1_theorem :
    (∀ r : LancacheRequest, is_cache_hit r = twoTierOn r.hit_status r.status) ∧
    (∀ (s : BasicState) (e : BasicEntry),
      (update_stats s e).cache_hits =
        s.cache_hits + (if e.cache_status = "HIT" then 1 else 0) ∧
      (update_stats s e).cache_misses =
        s.cache_misses + (if e.cache_status = "HIT" then 0 else 1)) := by
  constructor
  · intro r
    simp only [is_cache_hit, twoTierOn, List.mem_cons, List.not_mem_nil, or_false]
  · exact fun s e => ⟨rfl, rfl⟩

/-- Claim C1, counterexample to the claim as stated: the generic-format
line `staleLine` parses to an event whose token is STALE with status
200; the two-tier policy classifies it a hit, but the basic monitor's
`update_stats` counts it as a miss. -/
theorem C1_counterexample :
    parse_log_line staleLine = some staleEntry ∧
    twoTierOn staleEntry.cache_status staleEntry.status = true ∧
    (update_stats basicInit staleEntry).cache_hits = 0 ∧
    (update_stats basicInit staleEntry).cache_misses = 1 := by
  refine ⟨by decide, by decide, by decide, by decide⟩

/-- Claim C2 (corrected): the spec's two end-to-end test lines match
neither grammar — the generic grammar additionally requires a trailing
response-time field and the cache-tagged grammar a leading CDN tag — so
feeding them leaves every counter at zero rather than producing the
claimed snapshot. -/
theorem C2_counterexample :
    parse_log_line specLine1 = none ∧ parse_log_line specLine2 = none ∧
    parse_lancache_log_line specLine1 = none ∧
    parse_lancache_log_line specLine2 = none ∧
    (basicFeed [specLine1, specLine2]).cache_hits = 0 ∧
    (basicFeed [specLine1, specLine2]).cache_misses = 0 ∧
    (basicFeed [specLine1, specLine2]).total_bytes = 0 := by
  refine ⟨by decide, by decide, by decide, by decide, by decide, by decide, by decide⟩

/-- Claim C2 (amended): with the response-time field the generic
grammar requires appended to both lines, the pipeline yields exactly
the claimed snapshot: 2 requests (read as hits plus misses), 1 hit,
2048 total bytes, steam 1 request/1 hit/2048 bytes, epic 1 request/0
hits/0 bytes. -/
theorem C2_theorem :
    (basicFeed [rtLine1, rtLine2]).cache_hits = 1 ∧
    (basicFeed [rtLine1, rtLine2]).cache_misses = 1 ∧
    (basicFeed [rtLine1, rtLine2]).total_bytes = 2048 ∧
    (basicFeed [rtLine1, rtLine2]).cdn_stats "steam" = ⟨1, 0, 2048⟩ ∧
    (basicFeed [rtLine1, rtLine2]).cdn_stats "epic" = ⟨0, 1, 0⟩ := by
  refine ⟨by decide, by decide, by decide, by decide, by decide⟩

/-- Claim C3 (amended): when the current file is shorter than the
stored cursor, the read cycle of `monitor_logs` does not reset the
cursor to 0 — it seeks past the end, consumes nothing, and leaves the
cursor where it was.  No crash and no duplicate counting occur, but the
new file's content below the old offset is not consumed. -/
theorem C3_theorem (pos : Nat) (content : String) (h : content.length < pos) :
    readCycle pos content = ([], pos) := by
  unfold readCycle
  rw [if_neg (by omega)]

/-- Claim C3, witness: a 500-byte cursor against a 4-character file. -/
theorem C3_witness : readCycle 500 "abc\n" = ([], 500) :=
  C3_theorem 500 "abc\n" (by decide)

/-- Claim C3, counterexample to the claim as stated: with the cursor at
500 and a fresh shorter file, the next cycle keeps the cursor at 500
and consumes no lines, although the new file has content — the cursor
is not reset to 0 and the content is not consumed from the start. -/
theorem C3_counterexample :
    readCycle 500 "fresh\n" = ([], 500) ∧ fileLines "fresh\n" ≠ [] := by
  refine ⟨by decide, by decide⟩

/-- Claim C4 (confirmed): a line rejected by the parser changes nothing:
the docker loop body returns the state unchanged, and the basic
monitor's `update_stats` returns immediately on a failed parse.
Parsing itself is a total function into an option type: failure is the
value `none`, never an exception. -/
theorem C4_theorem :
    (∀ (now : Nat) (s : DockerState) (line : String),
      parse_lancache_log_line line = none → dockerLineStep now s line = s) ∧
    (∀ s : BasicState, update_statsO s none = s) := by
  refine ⟨fun now s line h => ?_, fun _ => rfl⟩
  unfold dockerLineStep
  split_ifs with ht
  · rw [h]
  · rfl

/-- Claim C4, witness: a concrete malformed line. -/
theorem C4_witness :
    dockerLineStep 0 dockerInit "not a log line" = dockerInit ∧
    update_statsO basicInit none = basicInit :=
  ⟨C4_theorem.1 0 dockerInit "not a log line" (by decide), C4_theorem.2 basicInit⟩

/-- Claim C5 (corrected): the docker monitor's tailing loop satisfies
the claim — every iteration continues, since its body catches all
exceptions and contains no exit path, and a missing or erroring file
leaves the state unchanged, to be retried on the next cycle.  The
basic monitor's loop does not: its handlers cover only
`FileNotFoundError` and `KeyboardInterrupt` and sit outside the loop,
so a transient read error leaves the tailing loop permanently. -/
theorem C5_theorem :
    (∀ (now : Nat) (st : MonitorState) (obs : FileObs),
      ∃ st', monitor_logs_step now st obs = LoopOutcome.cont st') ∧
    (∀ (now : Nat) (st : MonitorState),
      monitor_logs_step now st FileObs.absent = LoopOutcome.cont st) ∧
    (∀ (now : Nat) (st : MonitorState),
      monitor_logs_step now st FileObs.readError = LoopOutcome.cont st) ∧
    (∀ s : BasicState,
      basic_monitor_step s BasicReadObs.readError = BasicLoopOutcome.exit s) := by
  refine ⟨fun now st obs => ?_, fun _ _ => rfl, fun _ _ => rfl, fun _ => rfl⟩
  cases obs with
  | absent => exact ⟨st, rfl⟩
  | readError => exact ⟨st, rfl⟩
  | ok content => exact ⟨_, rfl⟩

/-- Claim C5, counterexample to the claim as stated: in the basic
monitor, a transient read error during tailing leaves the loop (the
`readline` exception is handled by neither `except` clause inside the
loop, and the outer handlers end `monitor`) — the erroring file is not
retried, contradicting the claim that no such error permanently stops
the tailing loop. -/
theorem C5_counterexample :
    basic_monitor_step basicInit BasicReadObs.readError =
      BasicLoopOutcome.exit basicInit := rfl

/-- Claim C6 (confirmed): from the zeroed state, after any finite
sequence of recorded events, hits never exceed requests — globally and
for every CDN label — and both derived hit rates lie in the interval
from 0 to 1. -/
theorem C6_theorem (evs : List (Nat × LancacheRequest)) :
    (dockerRun evs).total_hits ≤ (dockerRun evs).total_requests ∧
    (∀ c, ((dockerRun evs).cdn_stats c).hits ≤ ((dockerRun evs).cdn_stats c).requests) ∧
    (0 ≤ globalHitRate (dockerRun evs) ∧ globalHitRate (dockerRun evs) ≤ 1) ∧
    (∀ c, 0 ≤ cdnHitRate (dockerRun evs) c ∧ cdnHitRate (dockerRun evs) c ≤ 1) := by
  have hinv : (dockerRun evs).total_hits ≤ (dockerRun evs).total_requests ∧
      ∀ c, ((dockerRun evs).cdn_stats c).hits ≤ ((dockerRun evs).cdn_stats c).requests :=
    @dockerRun_inv
      (fun s => s.total_hits ≤ s.total_requests ∧
        ∀ c, (s.cdn_stats c).hits ≤ (s.cdn_stats c).requests)
      ⟨le_refl 0, fun _ => le_refl 0⟩
      (fun now s r h => inv6_step now s r h) evs
  refine ⟨hinv.1, hinv.2, ?_, fun c => ?_⟩
  · exact div_guard_bounds _ _ hinv.1
  · exact div_guard_bounds _ _ (hinv.2 c)

/-- Claim C7 (confirmed): the request-line split of the docker parser
agrees with the spec's description, and a line whose quoted request
field holds a single token still parses, with the defaulted path and
protocol. -/
theorem C7_theorem :
    (∀ s : String, request_parts s = specRequestParts s) ∧
    (∃ ev, parse_lancache_log_line oneTokenReqLine = some ev ∧
      ev.method = "GET" ∧ ev.url = "/" ∧ ev.protocol = "HTTP/1.1") := by
  constructor
  · intro s
    simp only [request_parts, specRequestParts]
    generalize (splitCh ' ' s.data).map (fun l => (⟨l⟩ : String)) = ps
    rcases ps with _ | ⟨a, _ | ⟨b, _ | ⟨c, rest⟩⟩⟩
    · simp
    · simp
    · simp
    · simp only [List.length_cons]
      rw [if_pos (show 3 ≤ rest.length + 1 + 1 + 1 by omega),
        if_neg (show ¬rest.length + 1 + 1 + 1 < 3 by omega)]
      simp
  · exact ⟨⟨"steam", "1.2.3.4", "01/Jan/2024:00:00:00 +0000", "GET", "/",
      "HTTP/1.1", 200, 5, "-", "-", "HIT", "-"⟩, by decide, rfl, rfl, rfl⟩

/-- Claim C8 (amended): within any line accepted by the cache-tagged
grammar the byte-count capture is necessarily a non-empty digit string
(so the source's `isdigit` fallback to 0 is unreachable), and every
parsed event's byte count is the numeric value of that digit string.  A
non-numeric byte field makes the whole line unparseable instead. -/
theorem C8_theorem :
    (∀ (line : String) (caps : List (List Char)) (r : List Char),
      mtch lancacheToks line.data = some (caps, r) →
      pyIsDigitL (caps.getD 5 []) = true) ∧
    (∀ (line : String) (ev : LancacheRequest),
      parse_lancache_log_line line = some ev →
      ∃ b, pyIsDigitL b = true ∧ ev.bytes = digitsToNat b) := by
  have key : ∀ (cs : List Char) (caps : List (List Char)) (r : List Char),
      mtch lancacheToks cs = some (caps, r) →
      ∃ b0 b1 b2 b3 b4 b5 b6 b7 b8 b9,
        caps = [b0, b1, b2, b3, b4, b5, b6, b7, b8, b9] ∧ pyIsDigitL b5 = true := by
    intro cs caps r hm
    have hF := mtchF_caps_sound _ _ _ _ _ hm
    have hg : groupSpecs lancacheToks =
        [(notRB, true), (nonWs, true), (notRB, true), (notQ, true),
         (Char.isDigit, true), (Char.isDigit, true), (notQ, false),
         (notQ, false), (notQ, false), (notQ, false)] := rfl
    rw [hg] at hF
    rcases caps with _ | ⟨b0, caps⟩; · cases hF
    cases hF with | cons h0 hF =>
    rcases caps with _ | ⟨b1, caps⟩; · cases hF
    cases hF with | cons h1 hF =>
    rcases caps with _ | ⟨b2, caps⟩; · cases hF
    cases hF with | cons h2 hF =>
    rcases caps with _ | ⟨b3, caps⟩; · cases hF
    cases hF with | cons h3 hF =>
    rcases caps with _ | ⟨b4, caps⟩; · cases hF
    cases hF with | cons h4 hF =>
    rcases caps with _ | ⟨b5, caps⟩; · cases hF
    cases hF with | cons h5 hF =>
    rcases caps with _ | ⟨b6, caps⟩; · cases hF
    cases hF with | cons h6 hF =>
    rcases caps with _ | ⟨b7, caps⟩; · cases hF
    cases hF with | cons h7 hF =>
    rcases caps with _ | ⟨b8, caps⟩; · cases hF
    cases hF with | cons h8 hF =>
    rcases caps with _ | ⟨b9, caps⟩; · cases hF
    cases hF with | cons h9 hF =>
    rcases caps with _ | ⟨b10, caps⟩
    case cons => cases hF
    refine ⟨b0, b1, b2, b3, b4, b5, b6, b7, b8, b9, rfl, ?_⟩
    obtain ⟨hall, hne⟩ := h5
    have hne' := hne rfl
    unfold pyIsDigitL
    rcases b5 with _ | ⟨d, tl⟩
    · exact absurd rfl hne'
    · simp only [List.isEmpty_cons, Bool.not_false, Bool.true_and]
      exact hall
  constructor
  · intro line caps r hm
    obtain ⟨b0, b1, b2, b3, b4, b5, b6, b7, b8, b9, hcaps, hd⟩ := key _ _ _ hm
    rw [hcaps]
    exact hd
  · intro line ev hp
    unfold parse_lancache_log_line lancacheMatchRaw at hp
    rcases hm : mtch lancacheToks (pyStrip line).data with _ | ⟨caps, r⟩
    · rw [hm] at hp; cases hp
    · rw [hm] at hp
      obtain ⟨b0, b1, b2, b3, b4, b5, b6, b7, b8, b9, hcaps, hd⟩ := key _ _ _ hm
      subst hcaps
      simp only [buildLancacheRequest, Option.some.injEq] at hp
      refine ⟨b5, hd, ?_⟩
      rw [← hp]
      simp [hd]

/-- Claim C8, witness: a well-formed line with byte count 2048. -/
theorem C8_witness :
    ∃ b, pyIsDigitL b = true ∧
      (2048 : Nat) = digitsToNat b := by
  have h := C8_theorem.2 dockerLine1
    ⟨"steam", "1.2.3.4", "01/Jan/2024:00:00:00 +0000", "GET", "/depot/1",
     "HTTP/1.1", 200, 2048, "-", "-", "HIT", "-"⟩ (by decide)
  exact h

/-- Claim C8, counterexample to the claim as stated: a line whose
byte-count field is `abc` does not produce an event with
`bytes_served = 0` — parsing fails for the whole line. -/
theorem C8_counterexample : parse_lancache_log_line badByteLine = none := by
  decide

/-- Claim C9 (confirmed): with zero requests every hit rate reads
exactly 0 — the printed global and per-CDN rates of the basic monitor,
the docker gauges at start-up, the docker global gauge whenever no
request has been processed, and the docker per-CDN gauge for any CDN
with zero requests.  All divisions in the sources are guarded by a
positivity test, so no division by zero is reachable. -/
theorem C9_theorem :
    print_hit_rate basicInit = 0 ∧
    (∀ c, print_cdn_hit_rate basicInit c = 0) ∧
    dockerInit.hit_rate = 0 ∧
    (∀ c, dockerInit.hit_rate_by_cdn c = 0) ∧
    (∀ evs, (dockerRun evs).total_requests = 0 → (dockerRun evs).hit_rate = 0) ∧
    (∀ evs c, ((dockerRun evs).cdn_stats c).requests = 0 →
      (dockerRun evs).hit_rate_by_cdn c = 0) := by
  have hinv : ∀ evs : List (Nat × LancacheRequest),
      ((dockerRun evs).total_requests = 0 → (dockerRun evs).hit_rate = 0) ∧
      ∀ c, ((dockerRun evs).cdn_stats c).requests = 0 →
        (dockerRun evs).hit_rate_by_cdn c = 0 := by
    exact @dockerRun_inv
      (fun s => (s.total_requests = 0 → s.hit_rate = 0) ∧
        ∀ c, (s.cdn_stats c).requests = 0 → s.hit_rate_by_cdn c = 0)
      ⟨fun _ => rfl, fun _ _ => rfl⟩
      (fun now s r h => inv9_step now s r h)
  exact ⟨rfl, fun _ => rfl, rfl, fun _ => rfl,
    fun evs => (hinv evs).1, fun evs c => (hinv evs).2 c⟩

/-- Claim C9, witness: the zeroed state. -/
theorem C9_witness :
    (dockerRun []).hit_rate = 0 ∧ (dockerRun []).hit_rate_by_cdn "steam" = 0 :=
  ⟨C9_theorem.2.2.2.2.1 [] rfl, C9_theorem.2.2.2.2.2 [] "steam" rfl⟩

/-- Claim C10 (amended): the cache-tagged pattern is end-extension
stable — its groups are all delimited by literals outside their
classes, so appending any suffix to a fully matching line leaves the
parsed event unchanged.  The generic pattern is not: its final
response-time group can absorb appended digits, changing the event. -/
theorem C10_theorem (s ext : String) (h : lancacheFullMatch s = true) :
    lancacheMatchRaw (s ++ ext) = lancacheMatchRaw s := by
  unfold lancacheFullMatch at h
  rcases hm : mtch lancacheToks s.data with _ | ⟨caps, r⟩
  · rw [hm] at h; cases h
  · rw [hm] at h
    rcases r with _ | ⟨c, r⟩
    · have happ := mtchF_append (lancacheToks.length + 1) lancacheToks
        s.data ext.data caps (by rfl) hm
      unfold lancacheMatchRaw
      have hdata : (s ++ ext).data = s.data ++ ext.data := rfl
      rw [hdata]
      unfold mtch at hm happ ⊢
      rw [happ, hm]
    · cases h

/-- Claim C10, witness: junk appended to a fully matching cache-tagged
line. -/
theorem C10_witness :
    lancacheMatchRaw (dockerLine1 ++ "JUNK") = lancacheMatchRaw dockerLine1 :=
  C10_theorem dockerLine1 "JUNK" (by decide)

/-- Claim C10, counterexample to the claim as stated: `rtLine1` fully
matches the generic grammar, yet appending the digit 9 yields a
different parsed event (the response-time group absorbs the digit). -/
theorem C10_counterexample :
    basicFullMatch rtLine1 = true ∧
    parse_log_line (rtLine1 ++ "9") ≠ parse_log_line rtLine1 := by
  refine ⟨by decide, by decide⟩
